import Mathlib

/-!
Shallow embedding of `quipuswap_liquidity_proxy.py` (SmartPy contract
`LiquidityFundContract`) and proofs about its entry points.

Modelling conventions:
* Tezos addresses and key hashes are abstract identifiers, modelled as `Nat`.
* `sp.TTimestamp` and `sp.now` are modelled as `Int` (seconds), since
  `sp.now - timestamp` is an `Int` in SmartPy.
* Each entry point becomes a function from the storage plus its execution
  context (sender, self address, now, the oracle view result, ...) to
  `Except Error (Storage × List OutMsg)`: SmartPy execution is all-or-nothing,
  so a failure produces no storage change and no outbound messages.
* `sp.view(...).open_some` is modelled by passing the view result as an
  `Option (Timestamp × Nat)` argument: `none` means the view could not be
  resolved and the call fails with `VWAP_VIEW_ERROR` at that point.
* Michelson `//` on naturals fails at runtime when the divisor is zero
  (`divisionByZero` below), and `sp.as_nat` fails on a negative argument
  (`asNatError` below); neither failure carries a named error constant.
-/

namespace QuipuswapLiquidityProxy

/-- Addresses are abstract identifiers (test addresses in
`test-helpers/addresses.py` are distinct opaque constants). -/
abbrev Address := Nat

/-- `sp.TKeyHash`, abstract. -/
abbrev KeyHash := Nat

/-- `sp.TTimestamp`: seconds, as an integer so that `now - timestamp` can be
negative. -/
abbrev Timestamp := Int

/-- State machine constant `IDLE = 0`. -/
def IDLE : Nat := 0

/-- State machine constant `WAITING_FOR_TOKEN_BALANCE = 1`. -/
def WAITING_FOR_TOKEN_BALANCE : Nat := 1

/-- Error outcomes of an entry-point execution.  The named constants come from
`common/errors.py`, which the repository only references (the module itself is
not under version control here); each constant is therefore an opaque,
pairwise-distinct tag, matched to the spec's taxonomy by its use site.
`divisionByZero` and `asNatError` are the anonymous Michelson runtime failures
of `//` with a zero divisor and of `sp.as_nat` on a negative value.
`invalidAmount` is named only in the spec's error taxonomy (for a zero
denominator); no site in the source raises it. -/
inductive Error where
  | notExecutor
  | notGovernor
  | notAdmin
  | vwapViewError
  | volatility
  | staleData
  | badState
  | badSender
  | approvalError
  | dexContractError
  | openSomeError
  | divisionByZero
  | asNatError
  | invalidAmount
  deriving DecidableEq, Repr

/-- The contract storage (`self.init` fields).  `maxDataDelaySec` is read by
`addLiquidity` (line 97) but only ever supplied through `**extra_storage`;
it is part of the persisted configuration. -/
structure Storage where
  governorContractAddress : Address
  executorContractAddress : Address
  tokenContractAddress : Address
  quipuswapContractAddress : Address
  harbingerContractAddress : Address
  volatilityTolerance : Nat
  maxDataDelaySec : Nat
  state : Nat
  sendAllTokens_destination : Option Address
  deriving DecidableEq, Repr

/-- Outbound internal operations (`sp.transfer` / `sp.send` /
`sp.set_delegate`), recorded in emission order with their target and payload. -/
inductive OutMsg where
  /-- `approve(spender, amount)` sent to the token contract. -/
  | approve (target : Address) (spender : Address) (amount : Nat)
  /-- `investLiquidity(tokens)` sent to the Quipuswap contract with
  `mutezAmount` attached as the native amount. -/
  | investLiquidity (target : Address) (tokens : Nat) (mutezAmount : Nat)
  /-- `divestLiquidity((minMutez, minTokens), lp)` sent to the Quipuswap
  contract. -/
  | divestLiquidity (target : Address) (minMutez : Nat) (minTokens : Nat)
      (lp : Nat)
  /-- `withdrawProfit(recipient)` sent to the Quipuswap contract. -/
  | withdrawProfit (target : Address) (recipient : Address)
  /-- `vote((candidate, value), voter)` sent to the Quipuswap contract. -/
  | voteMsg (target : Address) (candidate : KeyHash) (value : Nat)
      (voter : Address)
  /-- `veto(value, voter)` sent to the Quipuswap contract. -/
  | vetoMsg (target : Address) (value : Nat) (voter : Address)
  /-- `sp.send(destination, amount)`: a native-asset (XTZ) transfer. -/
  | sendXtz (destination : Address) (amount : Nat)
  /-- FA1.2 `transfer(from, to, value)` sent to `target`. -/
  | transferToken (target : Address) (from_ : Address) (to_ : Address)
      (value : Nat)
  /-- FA2 `transfer([{from, [{to, tokenId, amount}]}])` sent to `target`. -/
  | transferFA2 (target : Address) (from_ : Address) (to_ : Address)
      (tokenId : Nat) (amount : Nat)
  /-- `getBalance(owner, callback)` sent to the token contract; the callback
  is always `self.sendAllTokens_callback`. -/
  | getBalance (target : Address) (owner : Address)
  /-- `sp.set_delegate(newDelegate)`. -/
  | delegateOp (newDelegate : Option KeyHash)
  deriving DecidableEq, Repr

/-- Result of one entry-point execution: either an error (no storage change,
no messages) or the new storage together with the emitted messages in order. -/
abbrev Result := Except Error (Storage × List OutMsg)

/-- Entry point `default` (line 59): no-op, accepts XTZ. -/
def defaultEp (store : Storage) : Result :=
  .ok (store, [])

/-- Line 89: `inputPrice = tokensToAdd // mutezToAdd // 1000000` (truncating
natural division; the caller guards `mutez = 0`, which fails at runtime). -/
def inputPriceOf (tokens mutez : Nat) : Nat :=
  tokens / mutez / 1000000

/-- Line 92: `volatilityDifference = (abs(harbingerPrice - inputPrice) //
harbingerPrice) * 100` (the subtraction is an `Int`, `abs` yields a natural;
the caller guards `harbingerPrice = 0`). -/
def volatilityDifferenceOf (harbingerPrice inputPrice : Nat) : Nat :=
  (((harbingerPrice : Int) - (inputPrice : Int)).natAbs / harbingerPrice)
    * 100

/-- Line 96: `dataAge = as_nat(now - timestamp)` (the caller guards the
negative case, which makes `sp.as_nat` fail). -/
def dataAgeOf (now timestamp : Timestamp) : Nat :=
  (now - timestamp).toNat

/-- Body of `addLiquidity` after the executor check and the oracle view have
succeeded (lines 86-114), with `vwap` the resolved `(timestamp, price)` view
result.  Faithful order: `inputPrice` division (fails on `mutez = 0`);
`volatilityDifference` division (fails on `price = 0`);
`verify(volatilityTolerance > volatilityDifference)` with error
`VOLATILITY`; `as_nat(now - timestamp)` (fails on a future timestamp);
`verify(dataAge <= maxDataDelaySec)` with error `STALE_DATA`; then emit
`approve` to the token contract and `investLiquidity` to the Quipuswap
contract, in that order.  The code reads the timestamp as the first
component of the view result (declared `sp.TPair(sp.TTimestamp, sp.TNat)`). -/
def addLiquidityChecked (store : Storage) (now : Timestamp)
    (vwap : Timestamp × Nat) (tokens : Nat) (mutez : Nat) : Result :=
  if mutez = 0 then .error .divisionByZero
  else if vwap.2 = 0 then .error .divisionByZero
  else if ¬ store.volatilityTolerance >
      volatilityDifferenceOf vwap.2 (inputPriceOf tokens mutez) then
    .error .volatility
  else if now - vwap.1 < 0 then .error .asNatError
  else if ¬ dataAgeOf now vwap.1 ≤ store.maxDataDelaySec then
    .error .staleData
  else
    .ok (store,
      [.approve store.tokenContractAddress store.quipuswapContractAddress
          tokens,
       .investLiquidity store.quipuswapContractAddress tokens mutez])

/-- Entry point `addLiquidity` (lines 67-114).

Context: `sender` is `sp.sender`, `now` is `sp.now`, `oracle` is the result
of the Harbinger `getPrice` view (`none` when the view cannot be resolved,
in which case `open_some` fails with `VWAP_VIEW_ERROR`), `tokens`/`mutez`
are the parameters.  The executor check (line 72) precedes the oracle view
(line 79), which precedes all arithmetic (`addLiquidityChecked`). -/
def addLiquidity (store : Storage) (sender : Address) (now : Timestamp)
    (oracle : Option (Timestamp × Nat)) (tokens : Nat) (mutez : Nat) :
    Result :=
  if sender ≠ store.executorContractAddress then .error .notExecutor
  else
    match oracle with
    | none => .error .vwapViewError
    | some vwap => addLiquidityChecked store now vwap tokens mutez

/-- Entry point `removeLiquidity` (lines 116-139). -/
def removeLiquidity (store : Storage) (sender : Address)
    (minMutez : Nat) (minTokens : Nat) (lpToRemove : Nat) : Result :=
  if sender ≠ store.governorContractAddress then .error .notGovernor
  else
    .ok (store,
      [.divestLiquidity store.quipuswapContractAddress minMutez minTokens
          lpToRemove])

/-- Entry point `claimRewards` (lines 141-155). -/
def claimRewards (store : Storage) (sender : Address) (selfAddr : Address) :
    Result :=
  if sender ≠ store.governorContractAddress then .error .notGovernor
  else .ok (store, [.withdrawProfit store.quipuswapContractAddress selfAddr])

/-- Entry point `vote` (lines 157-176). -/
def vote (store : Storage) (sender : Address) (candidate : KeyHash)
    (value : Nat) (voter : Address) : Result :=
  if sender ≠ store.governorContractAddress then .error .notGovernor
  else
    .ok (store,
      [.voteMsg store.quipuswapContractAddress candidate value voter])

/-- Entry point `veto` (lines 178-194).  Note the source authorizes the
executor but uses the `NOT_GOVERNOR` error constant on failure (line 186). -/
def veto (store : Storage) (sender : Address) (value : Nat)
    (voter : Address) : Result :=
  if sender ≠ store.executorContractAddress then .error .notGovernor
  else .ok (store, [.vetoMsg store.quipuswapContractAddress value voter])

/-- Entry point `setDelegate` (lines 201-208): governor-only (error constant
`NOT_ADMIN`), emits the delegation operation, touches no storage field. -/
def setDelegate (store : Storage) (sender : Address)
    (newDelegate : Option KeyHash) : Result :=
  if sender ≠ store.governorContractAddress then .error .notAdmin
  else .ok (store, [.delegateOp newDelegate])

/-- Entry point `send` (lines 211-216). -/
def send (store : Storage) (sender : Address) (amount : Nat)
    (destination : Address) : Result :=
  if sender ≠ store.governorContractAddress then .error .notGovernor
  else .ok (store, [.sendXtz destination amount])

/-- Entry point `sendAll` (lines 219-224); `balance` is `sp.balance`. -/
def sendAll (store : Storage) (sender : Address) (balance : Nat)
    (destination : Address) : Result :=
  if sender ≠ store.governorContractAddress then .error .notGovernor
  else .ok (store, [.sendXtz destination balance])

/-- Entry point `sendTokens` (lines 227-249). -/
def sendTokens (store : Storage) (sender : Address) (selfAddr : Address)
    (amount : Nat) (destination : Address) : Result :=
  if sender ≠ store.governorContractAddress then .error .notGovernor
  else
    .ok (store,
      [.transferToken store.tokenContractAddress selfAddr destination amount])

/-- Entry point `sendAllTokens` (lines 252-279): governor-only; requires
`state == IDLE` (error `BAD_STATE`); emits a `getBalance` query to the token
contract with `self.sendAllTokens_callback` as reply target; then sets
`state = WAITING_FOR_TOKEN_BALANCE` and stores the destination. -/
def sendAllTokens (store : Storage) (sender : Address) (selfAddr : Address)
    (destination : Address) : Result :=
  if sender ≠ store.governorContractAddress then .error .notGovernor
  else if ¬ store.state = IDLE then .error .badState
  else
    .ok ({ store with
            state := WAITING_FOR_TOKEN_BALANCE,
            sendAllTokens_destination := some destination },
         [.getBalance store.tokenContractAddress selfAddr])

/-- Entry point `sendAllTokens_callback` (lines 282-310): sender must be the
token contract (error `BAD_SENDER`); state must be
`WAITING_FOR_TOKEN_BALANCE` (error `BAD_STATE`); opens the saved destination
(`open_some`, fails if `none`); emits the FA1.2 transfer of the reported
balance; resets the state machine. -/
def sendAllTokens_callback (store : Storage) (sender : Address)
    (selfAddr : Address) (tokenBalance : Nat) : Result :=
  if sender ≠ store.tokenContractAddress then .error .badSender
  else if ¬ store.state = WAITING_FOR_TOKEN_BALANCE then .error .badState
  else
    match store.sendAllTokens_destination with
    | none => .error .openSomeError
    | some destination =>
      .ok ({ store with state := IDLE, sendAllTokens_destination := none },
        [.transferToken store.tokenContractAddress selfAddr destination
            tokenBalance])

/-- Entry point `rescueFA12` (lines 313-335). -/
def rescueFA12 (store : Storage) (sender : Address) (selfAddr : Address)
    (tokenContractAddress : Address) (amount : Nat) (destination : Address) :
    Result :=
  if sender ≠ store.governorContractAddress then .error .notGovernor
  else
    .ok (store, [.transferToken tokenContractAddress selfAddr destination
        amount])

/-- Entry point `rescueFA2` (lines 338-380). -/
def rescueFA2 (store : Storage) (sender : Address) (selfAddr : Address)
    (tokenContractAddress : Address) (tokenId : Nat) (amount : Nat)
    (destination : Address) : Result :=
  if sender ≠ store.governorContractAddress then .error .notGovernor
  else
    .ok (store, [.transferFA2 tokenContractAddress selfAddr destination
        tokenId amount])

/-- Entry point `setGovernorContract` (lines 383-388). -/
def setGovernorContract (store : Storage) (sender : Address)
    (newGovernor : Address) : Result :=
  if sender ≠ store.governorContractAddress then .error .notGovernor
  else .ok ({ store with governorContractAddress := newGovernor }, [])

/-- Entry point `setExecutorContract` (lines 391-396). -/
def setExecutorContract (store : Storage) (sender : Address)
    (newExecutor : Address) : Result :=
  if sender ≠ store.governorContractAddress then .error .notGovernor
  else .ok ({ store with executorContractAddress := newExecutor }, [])

/-- Entry point `setVolatilityTolerance` (lines 399-404). -/
def setVolatilityTolerance (store : Storage) (sender : Address)
    (newTolerance : Nat) : Result :=
  if sender ≠ store.governorContractAddress then .error .notGovernor
  else .ok ({ store with volatilityTolerance := newTolerance }, [])

/-- Entry point `setHarbingerContract` (lines 407-412). -/
def setHarbingerContract (store : Storage) (sender : Address)
    (newHarbinger : Address) : Result :=
  if sender ≠ store.governorContractAddress then .error .notGovernor
  else .ok ({ store with harbingerContractAddress := newHarbinger }, [])

/-- One inbound call to the contract, bundling the entry point's parameters
with its execution context (sender, self address, clock, oracle view result,
native balance) so that a single step relation covers every entry point. -/
inductive Call where
  | default (sender : Address)
  | addLiquidity (sender : Address) (now : Timestamp)
      (oracle : Option (Timestamp × Nat)) (tokens : Nat) (mutez : Nat)
  | removeLiquidity (sender : Address) (minMutez : Nat) (minTokens : Nat)
      (lpToRemove : Nat)
  | claimRewards (sender : Address) (selfAddr : Address)
  | vote (sender : Address) (candidate : KeyHash) (value : Nat)
      (voter : Address)
  | veto (sender : Address) (value : Nat) (voter : Address)
  | setDelegate (sender : Address) (newDelegate : Option KeyHash)
  | send (sender : Address) (amount : Nat) (destination : Address)
  | sendAll (sender : Address) (balance : Nat) (destination : Address)
  | sendTokens (sender : Address) (selfAddr : Address) (amount : Nat)
      (destination : Address)
  | sendAllTokens (sender : Address) (selfAddr : Address)
      (destination : Address)
  | sendAllTokens_callback (sender : Address) (selfAddr : Address)
      (tokenBalance : Nat)
  | rescueFA12 (sender : Address) (selfAddr : Address)
      (tokenContractAddress : Address) (amount : Nat) (destination : Address)
  | rescueFA2 (sender : Address) (selfAddr : Address)
      (tokenContractAddress : Address) (tokenId : Nat) (amount : Nat)
      (destination : Address)
  | setGovernorContract (sender : Address) (newGovernor : Address)
  | setExecutorContract (sender : Address) (newExecutor : Address)
  | setVolatilityTolerance (sender : Address) (newTolerance : Nat)
  | setHarbingerContract (sender : Address) (newHarbinger : Address)
  deriving DecidableEq, Repr

/-- Dispatch one call to its entry point. -/
def run (store : Storage) : Call → Result
  | .default _ => defaultEp store
  | .addLiquidity sender now oracle tokens mutez =>
      addLiquidity store sender now oracle tokens mutez
  | .removeLiquidity sender a b c => removeLiquidity store sender a b c
  | .claimRewards sender selfAddr => claimRewards store sender selfAddr
  | .vote sender c v w => vote store sender c v w
  | .veto sender v w => veto store sender v w
  | .setDelegate sender d => setDelegate store sender d
  | .send sender a d => send store sender a d
  | .sendAll sender b d => sendAll store sender b d
  | .sendTokens sender selfAddr a d => sendTokens store sender selfAddr a d
  | .sendAllTokens sender selfAddr d => sendAllTokens store sender selfAddr d
  | .sendAllTokens_callback sender selfAddr b =>
      sendAllTokens_callback store sender selfAddr b
  | .rescueFA12 sender selfAddr t a d => rescueFA12 store sender selfAddr t a d
  | .rescueFA2 sender selfAddr t i a d =>
      rescueFA2 store sender selfAddr t i a d
  | .setGovernorContract sender a => setGovernorContract store sender a
  | .setExecutorContract sender a => setExecutorContract store sender a
  | .setVolatilityTolerance sender v => setVolatilityTolerance store sender v
  | .setHarbingerContract sender a => setHarbingerContract store sender a

/-- The storage after one call: a failing call leaves the storage unchanged
(Tezos execution is all-or-nothing). -/
def stepStorage (store : Storage) (c : Call) : Storage :=
  match run store c with
  | .ok (store', _) => store'
  | .error _ => store

/-- The messages emitted by one call: a failing call emits none. -/
def stepMsgs (store : Storage) (c : Call) : List OutMsg :=
  match run store c with
  | .ok (_, msgs) => msgs
  | .error _ => []

/-- The storage built by `__init__` (lines 22-52) from deployment parameters:
the sweep state machine always starts with `state = IDLE` and
`sendAllTokens_destination = sp.none`. -/
def initStorage (governor executor token quipuswap harbinger : Address)
    (volatilityTolerance maxDataDelaySec : Nat) : Storage :=
  { governorContractAddress := governor,
    executorContractAddress := executor,
    tokenContractAddress := token,
    quipuswapContractAddress := quipuswap,
    harbingerContractAddress := harbinger,
    volatilityTolerance := volatilityTolerance,
    maxDataDelaySec := maxDataDelaySec,
    state := IDLE,
    sendAllTokens_destination := none }

/-- Reachability: storages produced from some deployment by any sequence of
calls, counting failed calls (which leave the storage unchanged). -/
inductive Reachable : Storage → Prop where
  | init (governor executor token quipuswap harbinger : Address)
      (volatilityTolerance maxDataDelaySec : Nat) :
      Reachable
        (initStorage governor executor token quipuswap harbinger
          volatilityTolerance maxDataDelaySec)
  | step (store : Storage) (c : Call) (h : Reachable store) :
      Reachable (stepStorage store c)

/-- The sweep-state agreement invariant: `sendAllTokens_destination` is `some`
exactly in phase `WAITING_FOR_TOKEN_BALANCE` and `none` exactly in phase
`IDLE`. -/
def SweepInv (store : Storage) : Prop :=
  (store.sendAllTokens_destination.isSome ↔
    store.state = WAITING_FOR_TOKEN_BALANCE) ∧
  (store.sendAllTokens_destination = none ↔ store.state = IDLE)

instance (store : Storage) : Decidable (SweepInv store) := by
  unfold SweepInv; infer_instance

/-- A concrete deployment for scenario checks: governor 1, executor 2, token
contract 3, Quipuswap contract 4, Harbinger contract 5, volatility tolerance
5 (percent), max data age 60 seconds; the state machine starts idle. -/
def exampleStorage : Storage := initStorage 1 2 3 4 5 5 60

/-- `exampleStorage` after a successful `sendAllTokens` with destination 7. -/
def sweepStore : Storage :=
  { exampleStorage with
      state := WAITING_FOR_TOKEN_BALANCE,
      sendAllTokens_destination := some 7 }

/-! ## Theorems -/

/-- C2 counterexample.  With `volatilityTolerance = 5`, `maxDataDelaySec =
60`, oracle price 100 reported 10 seconds ago, `tokens = 1000000`,
`baseUnits = 10000`, the computed `inputPrice = 1000000 // 10000 // 1000000 =
0` (not 100), the deviation is `(100 // 100) * 100 = 100` (not 0), and the
call fails with the `VOLATILITY` error instead of succeeding with the
`approve`/`invest` messages the claim describes. -/
theorem scenario_inputPrice_not_100 :
    addLiquidity exampleStorage 2 1000 (some (990, 100)) 1000000 10000 =
      .error .volatility ∧
    (1000000 / 10000 / 1000000 : Nat) = 0 ∧
    ((((100 : Int) - ((1000000 / 10000 / 1000000 : Nat) : Int)).natAbs / 100)
        * 100 : Nat) = 100 := by
  refine ⟨rfl, rfl, rfl⟩

/-- C2 amended: in the §8 scenario the truncating division gives
`inputPrice = 0` and deviation `100 ≥ 5`, so `addLiquidity` fails with the
`VOLATILITY` error and emits no messages, leaving the storage unchanged. -/
theorem scenario_fails_with_volatility :
    addLiquidity exampleStorage 2 1000 (some (990, 100)) 1000000 10000 =
      .error .volatility ∧
    stepStorage exampleStorage
      (.addLiquidity 2 1000 (some (990, 100)) 1000000 10000) =
        exampleStorage ∧
    stepMsgs exampleStorage
      (.addLiquidity 2 1000 (some (990, 100)) 1000000 10000) = [] := by
  refine ⟨rfl, rfl, rfl⟩

/-- C3 counterexample.  With `baseUnits = 0` the outcome of `addLiquidity`
depends on the oracle response: if the Harbinger view cannot be resolved the
call fails with `VWAP_VIEW_ERROR`, and only when the view resolves does it
fail with the division-by-zero runtime failure.  So the failure happens
after the oracle query is issued, and is never the spec's `InvalidAmount`. -/
theorem baseUnits_zero_after_oracle_query :
    addLiquidity exampleStorage 2 1000 none 5 0 = .error .vwapViewError ∧
    addLiquidity exampleStorage 2 1000 (some (990, 100)) 5 0 =
      .error .divisionByZero ∧
    Error.vwapViewError ≠ Error.invalidAmount ∧
    Error.divisionByZero ≠ Error.invalidAmount := by
  refine ⟨rfl, rfl, by decide, by decide⟩

/-- C3 amended: a call by the executor with `baseUnits = 0` fails
deterministically with the anonymous division-by-zero failure once the
oracle view resolves (for every tokens value and every resolved oracle
response), and with `VWAP_VIEW_ERROR` when the view does not resolve: the
oracle query precedes the zero-denominator failure, which in turn precedes
the deviation comparison and any outbound message. -/
theorem baseUnits_zero_division_failure (store : Storage) (now ts : Timestamp)
    (p tokens : Nat) :
    addLiquidity store store.executorContractAddress now (some (ts, p))
      tokens 0 = .error .divisionByZero ∧
    addLiquidity store store.executorContractAddress now none tokens 0 =
      .error .vwapViewError ∧
    stepMsgs store (.addLiquidity store.executorContractAddress now
      (some (ts, p)) tokens 0) = [] := by
  refine ⟨?_, ?_, ?_⟩ <;>
    simp [addLiquidity, addLiquidityChecked, stepMsgs, run]

/-- C4 counterexample.  In the claimed scenario (`timestamp = now - 61s`,
other inputs as in §8: tolerance 5, max age 60, price 100,
`tokens = 1000000`, `baseUnits = 10000`) the call fails with `VOLATILITY`,
not `STALE_DATA`: the deviation check runs first and the deviation is 100. -/
theorem stale_scenario_fails_with_volatility :
    addLiquidity exampleStorage 2 1000 (some (939, 100)) 1000000 10000 =
      .error .volatility ∧
    Error.volatility ≠ Error.staleData := by
  refine ⟨rfl, by decide⟩

/-- C4 amended: in `addLiquidity` the deviation check precedes the staleness
check — whenever the truncated deviation reaches the tolerance the call
fails with `VOLATILITY` regardless of the oracle timestamp (even stale or
future-dated data); the staleness rejection is only reachable with a
passing deviation, as in the scenario with `tokens = 100000000`,
`baseUnits = 1` (deviation 0) and `timestamp = now - 61`, which fails with
`STALE_DATA` and emits no messages. -/
theorem deviation_check_precedes_staleness (store : Storage)
    (now ts : Timestamp) (p tokens mutez : Nat) (hp : p ≠ 0) (hm : mutez ≠ 0)
    (hdev : store.volatilityTolerance ≤
      volatilityDifferenceOf p (inputPriceOf tokens mutez)) :
    addLiquidity store store.executorContractAddress now (some (ts, p))
      tokens mutez = .error .volatility ∧
    addLiquidity exampleStorage 2 1000 (some (939, 100)) 100000000 1 =
      .error .staleData ∧
    stepMsgs exampleStorage
      (.addLiquidity 2 1000 (some (939, 100)) 100000000 1) = [] := by
  refine ⟨?_, rfl, rfl⟩
  simp [addLiquidity, addLiquidityChecked, hp, hm, not_lt.mpr hdev]

/-- C4 witness: the amended ordering theorem applied to the literal §8
scenario with a 61-second-old report, where the deviation is 100 ≥ 5. -/
theorem deviation_check_precedes_staleness_witness :
    (100 : Nat) ≠ 0 ∧ (10000 : Nat) ≠ 0 ∧
    exampleStorage.volatilityTolerance ≤
      volatilityDifferenceOf 100 (inputPriceOf 1000000 10000) ∧
    addLiquidity exampleStorage exampleStorage.executorContractAddress 1000
      (some (939, 100)) 1000000 10000 = .error .volatility :=
  ⟨by decide, by decide, by decide,
    (deviation_check_precedes_staleness exampleStorage 1000 939 100 1000000
      10000 (by decide) (by decide) (by decide)).1⟩

/-- C9: `addLiquidity` called by any sender other than the configured
executor (in particular the governor) fails with the `NOT_EXECUTOR` error
for every oracle response, clock value and argument pair, changing no
storage field and emitting no message. -/
theorem addLiquidity_non_executor_unauthorized (store : Storage)
    (sender : Address) (now : Timestamp) (oracle : Option (Timestamp × Nat))
    (tokens mutez : Nat) (hsender : sender ≠ store.executorContractAddress) :
    addLiquidity store sender now oracle tokens mutez = .error .notExecutor ∧
    stepStorage store (.addLiquidity sender now oracle tokens mutez) =
      store ∧
    stepMsgs store (.addLiquidity sender now oracle tokens mutez) = [] := by
  refine ⟨?_, ?_, ?_⟩ <;>
    simp [addLiquidity, stepStorage, stepMsgs, run, hsender]

/-- C9 witness: the governor (address 1) is not the executor (address 2) of
`exampleStorage`, and its `addLiquidity` call fails with `NOT_EXECUTOR`. -/
theorem addLiquidity_non_executor_unauthorized_witness :
    (1 : Address) ≠ exampleStorage.executorContractAddress ∧
    (addLiquidity exampleStorage 1 1000 (some (990, 100)) 1000000 10000 =
        .error .notExecutor ∧
      stepStorage exampleStorage
        (.addLiquidity 1 1000 (some (990, 100)) 1000000 10000) =
          exampleStorage ∧
      stepMsgs exampleStorage
        (.addLiquidity 1 1000 (some (990, 100)) 1000000 10000) = []) :=
  ⟨by decide,
    addLiquidity_non_executor_unauthorized exampleStorage 1 1000
      (some (990, 100)) 1000000 10000 (by decide)⟩

/-- C10: `setDelegate` (an entry point absent from the spec's list) rejects
every sender other than the governor with the `NOT_ADMIN` authorization
error, and when the governor calls it with any optional key hash it
succeeds, emits only the delegation operation, and returns the storage
with every field unchanged. -/
theorem setDelegate_governor_only_no_storage_change (store : Storage)
    (sender : Address) (newDelegate : Option KeyHash)
    (hsender : sender ≠ store.governorContractAddress) :
    setDelegate store sender newDelegate = .error .notAdmin ∧
    ∀ d : Option KeyHash,
      setDelegate store store.governorContractAddress d =
        .ok (store, [.delegateOp d]) := by
  refine ⟨by simp [setDelegate, hsender], fun d => by simp [setDelegate]⟩

/-- C10 witness: the executor (address 2) is rejected with `NOT_ADMIN`; the
governor (address 1) succeeds with storage unchanged. -/
theorem setDelegate_governor_only_witness :
    (2 : Address) ≠ exampleStorage.governorContractAddress ∧
    (setDelegate exampleStorage 2 (some 42) = .error .notAdmin ∧
      ∀ d : Option KeyHash,
        setDelegate exampleStorage exampleStorage.governorContractAddress d =
          .ok (exampleStorage, [.delegateOp d])) :=
  ⟨by decide,
    setDelegate_governor_only_no_storage_change exampleStorage 2 (some 42)
      (by decide)⟩

/-- C6: if the governor's `sendAllTokens d1` succeeds from the idle phase,
then a second `sendAllTokens d2` before the callback fails with the
`BAD_STATE` error (the source uses the same constant for both state-machine
guards; the spec calls this rejection `SweepAlreadyInProgress`), emits no
message, and leaves `sendAllTokens_destination = some d1` with the phase
still `WAITING_FOR_TOKEN_BALANCE` — exactly one sweep stays outstanding. -/
theorem second_sendAllTokens_rejected (store : Storage)
    (selfAddr d1 d2 : Address) (store1 : Storage) (msgs1 : List OutMsg)
    (hidle : store.state = IDLE)
    (h1 : sendAllTokens store store.governorContractAddress selfAddr d1 =
      .ok (store1, msgs1)) :
    sendAllTokens store1 store1.governorContractAddress selfAddr d2 =
      .error .badState ∧
    store1.sendAllTokens_destination = some d1 ∧
    store1.state = WAITING_FOR_TOKEN_BALANCE ∧
    stepMsgs store1
      (.sendAllTokens store1.governorContractAddress selfAddr d2) = [] := by
  simp only [sendAllTokens, hidle, IDLE] at h1
  simp only [ne_eq, not_true_eq_false, if_false, if_true, ite_false,
    ite_true, not_false_eq_true, Except.ok.injEq, Prod.mk.injEq] at h1
  obtain ⟨hs, hmsg⟩ := h1
  subst hs
  refine ⟨?_, rfl, rfl, ?_⟩ <;>
    simp [sendAllTokens, stepMsgs, run, WAITING_FOR_TOKEN_BALANCE, IDLE]

/-- C6 witness: the two calls at the concrete deployment `exampleStorage`
(governor 1) with destinations 7 then 8. -/
theorem second_sendAllTokens_rejected_witness :
    exampleStorage.state = IDLE ∧
    sendAllTokens exampleStorage exampleStorage.governorContractAddress 99 7 =
      .ok (sweepStore, [.getBalance 3 99]) ∧
    (sendAllTokens sweepStore sweepStore.governorContractAddress 99 8 =
        .error .badState ∧
      sweepStore.sendAllTokens_destination = some 7 ∧
      sweepStore.state = WAITING_FOR_TOKEN_BALANCE ∧
      stepMsgs sweepStore
        (.sendAllTokens sweepStore.governorContractAddress 99 8) = []) :=
  ⟨rfl, rfl,
    second_sendAllTokens_rejected exampleStorage 99 7 8 sweepStore
      [.getBalance 3 99] rfl rfl⟩

/-- C7: `sendAllTokens_callback` from any sender other than the configured
token contract fails with the `BAD_SENDER` error for every reported
balance, leaving every storage field unchanged and emitting nothing; and a
call from the token contract in any phase other than
`WAITING_FOR_TOKEN_BALANCE` fails with the `BAD_STATE` error. -/
theorem callback_sender_and_state_guard (store : Storage)
    (sender selfAddr : Address) (balance : Nat)
    (hsender : sender ≠ store.tokenContractAddress) :
    sendAllTokens_callback store sender selfAddr balance =
      .error .badSender ∧
    stepStorage store (.sendAllTokens_callback sender selfAddr balance) =
      store ∧
    stepMsgs store (.sendAllTokens_callback sender selfAddr balance) = [] ∧
    ∀ b' : Nat, store.state ≠ WAITING_FOR_TOKEN_BALANCE →
      sendAllTokens_callback store store.tokenContractAddress selfAddr b' =
        .error .badState := by
  refine ⟨?_, ?_, ?_, fun b' hstate => ?_⟩
  · simp [sendAllTokens_callback, hsender]
  · simp [stepStorage, run, sendAllTokens_callback, hsender]
  · simp [stepMsgs, run, sendAllTokens_callback, hsender]
  · simp [sendAllTokens_callback, hstate]

/-- C7 witness: address 9 is not the token contract (address 3) of
`sweepStore`, and `sweepStore` is in the awaiting phase while
`exampleStorage`-style idle storages illustrate the `BAD_STATE` guard. -/
theorem callback_sender_and_state_guard_witness :
    (9 : Address) ≠ sweepStore.tokenContractAddress ∧
    (sendAllTokens_callback sweepStore 9 99 12345 = .error .badSender ∧
      stepStorage sweepStore (.sendAllTokens_callback 9 99 12345) =
        sweepStore ∧
      stepMsgs sweepStore (.sendAllTokens_callback 9 99 12345) = [] ∧
      ∀ b' : Nat, sweepStore.state ≠ WAITING_FOR_TOKEN_BALANCE →
        sendAllTokens_callback sweepStore sweepStore.tokenContractAddress 99
          b' = .error .badState) :=
  ⟨by decide, callback_sender_and_state_guard sweepStore 9 99 12345
    (by decide)⟩

/-- C8: a complete sweep round-trip.  If the governor's
`sendAllTokens destination` succeeds from the idle state (with no pending
destination, as the invariant guarantees), the emitted message is the
`getBalance` query, and the following callback from the token contract with
reported balance `B` succeeds, restores the storage exactly to the original
(phase `IDLE`, destination `none`), and emits exactly one
`transfer(from = self, to = destination, value = B)` to the token
contract. -/
theorem sweep_roundtrip (store : Storage) (selfAddr destination : Address)
    (balance : Nat) (store1 : Storage) (msgs1 : List OutMsg)
    (hidle : store.state = IDLE)
    (hdest : store.sendAllTokens_destination = none)
    (h1 : sendAllTokens store store.governorContractAddress selfAddr
      destination = .ok (store1, msgs1)) :
    msgs1 = [.getBalance store.tokenContractAddress selfAddr] ∧
    sendAllTokens_callback store1 store.tokenContractAddress selfAddr
      balance =
      .ok (store, [.transferToken store.tokenContractAddress selfAddr
        destination balance]) := by
  simp only [sendAllTokens, hidle, IDLE] at h1
  simp only [ne_eq, not_true_eq_false, if_false, if_true, ite_false,
    ite_true, not_false_eq_true, Except.ok.injEq, Prod.mk.injEq] at h1
  obtain ⟨hs, hmsg⟩ := h1
  subst hs hmsg
  refine ⟨rfl, ?_⟩
  simp only [sendAllTokens_callback, WAITING_FOR_TOKEN_BALANCE]
  cases store with
  | mk g e t q ha v m st sd =>
    simp_all [IDLE, WAITING_FOR_TOKEN_BALANCE]

/-- C8 witness: the round-trip at the concrete deployment `exampleStorage`
with destination 7 and reported balance 12345. -/
theorem sweep_roundtrip_witness :
    exampleStorage.state = IDLE ∧
    exampleStorage.sendAllTokens_destination = none ∧
    sendAllTokens exampleStorage exampleStorage.governorContractAddress 99 7 =
      .ok (sweepStore, [.getBalance 3 99]) ∧
    ([OutMsg.getBalance 3 99] =
        [.getBalance exampleStorage.tokenContractAddress 99] ∧
      sendAllTokens_callback sweepStore exampleStorage.tokenContractAddress
        99 12345 =
        .ok (exampleStorage,
          [.transferToken exampleStorage.tokenContractAddress 99 7 12345])) :=
  ⟨rfl, rfl, rfl,
    sweep_roundtrip exampleStorage 99 7 12345 sweepStore
      [.getBalance 3 99] rfl rfl rfl⟩

/-- Evaluation lemma: with a nonzero denominator, a nonzero oracle price and
a non-future timestamp, the arithmetic part of `addLiquidity` reduces to the
volatility guard followed by the staleness guard. -/
theorem addLiquidityChecked_eval (store : Storage) (now : Timestamp)
    (vwap : Timestamp × Nat) (tokens mutez : Nat) (hm : mutez ≠ 0)
    (hp0 : vwap.2 ≠ 0) (hts : vwap.1 ≤ now) :
    addLiquidityChecked store now vwap tokens mutez =
      if store.volatilityTolerance ≤
          volatilityDifferenceOf vwap.2 (inputPriceOf tokens mutez) then
        .error .volatility
      else if store.maxDataDelaySec < dataAgeOf now vwap.1 then
        .error .staleData
      else
        .ok (store,
          [.approve store.tokenContractAddress
              store.quipuswapContractAddress tokens,
           .investLiquidity store.quipuswapContractAddress tokens mutez]) := by
  unfold addLiquidityChecked
  rw [if_neg hm, if_neg hp0,
    if_neg (not_lt.mpr (sub_nonneg.mpr hts))]
  simp only [gt_iff_lt, not_lt, not_le]

/-- The executor check and the resolved oracle view reduce `addLiquidity` to
its arithmetic part. -/
theorem addLiquidity_executor_run (store : Storage) (now : Timestamp)
    (vwap : Timestamp × Nat) (tokens mutez : Nat) :
    addLiquidity store store.executorContractAddress now (some vwap) tokens
      mutez = addLiquidityChecked store now vwap tokens mutez := by
  simp [addLiquidity]

/-- C1: for positive `tokens`, `baseUnits` and oracle price `p`, and a
report not from the future, the executor's `addLiquidity` succeeds exactly
when `dataAge ≤ maxDataDelaySec` and the truncated deviation
`(|p - inputPrice| / p) * 100` is strictly below the tolerance; whenever
the deviation reaches the tolerance it fails with the `VOLATILITY` error,
and with a passing deviation but stale data it fails with the `STALE_DATA`
error. -/
theorem addLiquidity_success_iff (store : Storage) (now ts : Timestamp)
    (p tokens mutez : Nat) (_htokens : 0 < tokens) (hmutez : 0 < mutez)
    (hp : 0 < p) (hts : ts ≤ now) :
    ((∃ out, addLiquidity store store.executorContractAddress now
        (some (ts, p)) tokens mutez = .ok out) ↔
      (dataAgeOf now ts ≤ store.maxDataDelaySec ∧
        volatilityDifferenceOf p (inputPriceOf tokens mutez) <
          store.volatilityTolerance)) ∧
    (store.volatilityTolerance ≤
        volatilityDifferenceOf p (inputPriceOf tokens mutez) →
      addLiquidity store store.executorContractAddress now (some (ts, p))
        tokens mutez = .error .volatility) ∧
    (volatilityDifferenceOf p (inputPriceOf tokens mutez) <
        store.volatilityTolerance →
      store.maxDataDelaySec < dataAgeOf now ts →
      addLiquidity store store.executorContractAddress now (some (ts, p))
        tokens mutez = .error .staleData) := by
  have heval := addLiquidityChecked_eval store now (ts, p) tokens mutez
    (Nat.pos_iff_ne_zero.mp hmutez) (Nat.pos_iff_ne_zero.mp hp) hts
  rw [addLiquidity_executor_run store now (ts, p) tokens mutez, heval]
  by_cases hdev : store.volatilityTolerance ≤
      volatilityDifferenceOf p (inputPriceOf tokens mutez)
  · refine ⟨?_, fun _ => by simp [hdev], fun hdev' _ => ?_⟩
    · simp only [if_pos hdev]
      constructor
      · rintro ⟨out, h⟩
        exact absurd h (by simp)
      · rintro ⟨_, hdev'⟩
        exact absurd hdev' (not_lt.mpr hdev)
    · exact absurd hdev' (not_lt.mpr hdev)
  · by_cases hage : store.maxDataDelaySec < dataAgeOf now ts
    · refine ⟨?_, fun hdev' => absurd hdev' hdev, fun _ _ => ?_⟩
      · simp only [if_neg hdev, if_pos hage]
        constructor
        · rintro ⟨out, h⟩
          exact absurd h (by simp)
        · rintro ⟨hage', _⟩
          exact absurd hage (not_lt.mpr hage')
      · simp [if_neg hdev, if_pos hage]
    · refine ⟨?_, fun hdev' => absurd hdev' hdev, fun _ hage' =>
        absurd hage' hage⟩
      simp only [if_neg hdev, if_neg hage]
      constructor
      · exact fun _ => ⟨not_lt.mp hage, not_le.mp hdev⟩
      · exact fun _ => ⟨_, rfl⟩

/-- C1 witness: at the concrete deployment, `tokens = 100000000`,
`baseUnits = 1` and oracle report `(990, 100)` at `now = 1000` give
`inputPrice = 100`, deviation `0 < 5` and data age `10 ≤ 60`, so the call
succeeds; the success branch of the iff is exhibited. -/
theorem addLiquidity_success_iff_witness :
    (0 : Nat) < 100000000 ∧ (0 : Nat) < 1 ∧ (0 : Nat) < 100 ∧
    (990 : Timestamp) ≤ 1000 ∧
    (((∃ out, addLiquidity exampleStorage
          exampleStorage.executorContractAddress 1000 (some (990, 100))
          100000000 1 = .ok out) ↔
        (dataAgeOf 1000 990 ≤ exampleStorage.maxDataDelaySec ∧
          volatilityDifferenceOf 100 (inputPriceOf 100000000 1) <
            exampleStorage.volatilityTolerance)) ∧
      (exampleStorage.volatilityTolerance ≤
          volatilityDifferenceOf 100 (inputPriceOf 100000000 1) →
        addLiquidity exampleStorage exampleStorage.executorContractAddress
          1000 (some (990, 100)) 100000000 1 = .error .volatility) ∧
      (volatilityDifferenceOf 100 (inputPriceOf 100000000 1) <
          exampleStorage.volatilityTolerance →
        exampleStorage.maxDataDelaySec < dataAgeOf 1000 990 →
        addLiquidity exampleStorage exampleStorage.executorContractAddress
          1000 (some (990, 100)) 100000000 1 = .error .staleData)) :=
  ⟨by decide, by decide, by decide, by decide,
    addLiquidity_success_iff exampleStorage 1000 990 100 100000000 1
      (by decide) (by decide) (by decide) (by decide)⟩

/-- Every successful call preserves the sweep-state agreement between
`state` and `sendAllTokens_destination`. -/
theorem sweepInv_of_run (store : Storage) (c : Call) (store' : Storage)
    (msgs : List OutMsg) (hinv : SweepInv store)
    (h : run store c = .ok (store', msgs)) : SweepInv store' := by
  obtain ⟨h1, h2⟩ := hinv
  cases c <;>
    simp only [run, defaultEp, addLiquidity, addLiquidityChecked,
      removeLiquidity, claimRewards, vote, veto, setDelegate, send, sendAll,
      sendTokens, sendAllTokens, sendAllTokens_callback, rescueFA12,
      rescueFA2, setGovernorContract, setExecutorContract,
      setVolatilityTolerance, setHarbingerContract] at h <;>
    (repeat' split at h) <;>
    (try simp_all [SweepInv, WAITING_FOR_TOKEN_BALANCE, IDLE]) <;>
    (obtain ⟨rfl, rfl⟩ := h) <;>
    simp_all [SweepInv, WAITING_FOR_TOKEN_BALANCE, IDLE]

/-- Every single call — successful or failed — preserves the sweep-state
agreement between `state` and `sendAllTokens_destination`. -/
theorem sweepInv_step (store : Storage) (c : Call) (h : SweepInv store) :
    SweepInv (stepStorage store c) := by
  unfold stepStorage
  cases hrun : run store c with
  | ok res =>
      obtain ⟨store', msgs⟩ := res
      exact sweepInv_of_run store c store' msgs h hrun
  | error e => exact h

/-- C5: in every state reachable from deployment, `sendAllTokens_destination`
is `some` exactly when the sweep phase is `WAITING_FOR_TOKEN_BALANCE` and
`none` exactly when it is `IDLE`; every entry point (in particular
`sendAllTokens` and `sendAllTokens_callback`) preserves the agreement. -/
theorem reachable_sweep_invariant (store : Storage) (h : Reachable store) :
    SweepInv store := by
  induction h with
  | init governor executor token quipuswap harbinger vol maxAge =>
      exact ⟨by simp [initStorage, IDLE, WAITING_FOR_TOKEN_BALANCE],
             by simp [initStorage, IDLE]⟩
  | step s c _ ih => exact sweepInv_step s c ih

/-- C5 witness: the invariant at the concrete freshly deployed storage,
obtained by applying the reachability theorem to the deployment step. -/
theorem reachable_sweep_invariant_witness :
    SweepInv (initStorage 1 2 3 4 5 5 60) :=
  reachable_sweep_invariant (initStorage 1 2 3 4 5 5 60)
    (Reachable.init 1 2 3 4 5 5 60)

end QuipuswapLiquidityProxy
